import Mathlib

/-!
Shallow embedding of the livestream demo client (App.tsx session controller
and LiveStreamBroadcaster.tsx). React state hooks become record fields,
event handlers become state-transition functions returning the new state
together with the list of observable effects (alerts, backend requests,
data-channel publishes). Asynchronous outcomes (backend responses, device
acquisition, clock reads, JSON parsing of inbound payloads) are passed in
as explicit parameters, so every definition is executable.
-/

/-- Screen mode of the session controller, `useState<'home'|'broadcaster'|'viewer'>`. -/
inductive Mode
  | home
  | broadcaster
  | viewer
deriving DecidableEq, Repr

/-- State of the App component: mode, roomName, userName, serverUrl, token, isLoading. -/
structure AppState where
  mode : Mode
  roomName : String
  userName : String
  serverUrl : String
  token : String
  isLoading : Bool
deriving DecidableEq, Repr

/-- Observable effects of App handlers: `alert(...)` calls and HTTP POSTs to the
token endpoint (body `identity`, `room_name`, `role`). -/
inductive AppEffect
  | alert (msg : String)
  | credentialRequest (identity : String) (roomName : String) (role : String)
deriving DecidableEq, Repr

/-- Outcome of the backend call made by `generateToken`: 200 with a token,
non-200 whose JSON body may carry an `error` field, or a thrown network error. -/
inductive BackendResponse
  | success (token : String)
  | errorStatus (error : Option String)
  | networkFailure (msg : String)
deriving DecidableEq, Repr

/-- role sent in the request body: `canPublish ? 'host' : 'audience'`. -/
def roleFor (canPublish : Bool) : String :=
  if canPublish then "host" else "audience"

/-- generateToken: always issues the POST, then returns the token on 200,
otherwise throws `errorData.error || 'Failed to generate token'` for a
non-200 response, or rethrows the network error. -/
def generateToken (identity : String) (roomName : String) (canPublish : Bool)
    (resp : BackendResponse) : Except String String × List AppEffect :=
  (match resp with
   | BackendResponse.success t => Except.ok t
   | BackendResponse.errorStatus e? =>
       Except.error (match e? with
         | some e => if e = "" then "Failed to generate token" else e
         | none => "Failed to generate token")
   | BackendResponse.networkFailure m => Except.error m,
   [AppEffect.credentialRequest identity roomName (roleFor canPublish)])

/-- handleStartBroadcast: rejects empty roomName/userName with an alert and no
request; otherwise calls generateToken with canPublish = true and on success
stores the token and switches mode to broadcaster, on failure alerts the
error message with the broadcaster prefix. -/
def handleStartBroadcast (s : AppState) (resp : BackendResponse) :
    AppState × List AppEffect :=
  if s.roomName = "" ∨ s.userName = "" then
    (s, [AppEffect.alert "Please enter room name and your name"])
  else
    match generateToken s.userName s.roomName true resp with
    | (Except.ok t, effs) =>
        ({s with token := t, mode := Mode.broadcaster, isLoading := false}, effs)
    | (Except.error m, effs) =>
        ({s with isLoading := false},
         effs ++ [AppEffect.alert ("Failed to generate broadcaster token: " ++ m)])

/-- handleJoinViewer: same validation as handleStartBroadcast, but requests an
audience token (canPublish = false) and switches mode to viewer. -/
def handleJoinViewer (s : AppState) (resp : BackendResponse) :
    AppState × List AppEffect :=
  if s.roomName = "" ∨ s.userName = "" then
    (s, [AppEffect.alert "Please enter room name and your name"])
  else
    match generateToken s.userName s.roomName false resp with
    | (Except.ok t, effs) =>
        ({s with token := t, mode := Mode.viewer, isLoading := false}, effs)
    | (Except.error m, effs) =>
        ({s with isLoading := false},
         effs ++ [AppEffect.alert ("Failed to generate viewer token: " ++ m)])

/-- handleDisconnect: `setMode('home'); setToken('')`. -/
def handleDisconnect (s : AppState) : AppState :=
  {s with mode := Mode.home, token := ""}

/-- what App renders: the home screen, or a child View receiving
roomName, token, serverUrl and userName as props. -/
inductive View
  | homeView
  | broadcasterView (roomName : String) (token : String)
      (serverUrl : String) (userName : String)
  | viewerView (roomName : String) (token : String)
      (serverUrl : String) (userName : String)
deriving DecidableEq, Repr

/-- render branch of App: which child view is mounted and with which props. -/
def renderApp (s : AppState) : View :=
  match s.mode with
  | Mode.broadcaster =>
      View.broadcasterView s.roomName s.token s.serverUrl s.userName
  | Mode.viewer =>
      View.viewerView s.roomName s.token s.serverUrl s.userName
  | Mode.home => View.homeView

/-- ConnectionState of the livekit SDK as far as the broadcaster observes it. -/
inductive ConnectionState
  | disconnected
  | connecting
  | connected
  | reconnecting
deriving DecidableEq, Repr

/-- ChatMessage log entry: id, user, message, display timestamp. -/
structure ChatMessage where
  id : String
  user : String
  message : String
  timestamp : String
deriving DecidableEq, Repr

/-- payload serialized onto the data channel:
`{type, data: {user: {username}, message, timestamp}}`. -/
structure DataPayload where
  type : String
  username : String
  message : String
  timestamp : String
deriving DecidableEq, Repr

/-- Observable effects of broadcaster handlers: alert dialogs, console error
logs, and `publishData(bytes, {reliable})` calls on the room. -/
inductive BEffect
  | alert (msg : String)
  | logError (msg : String)
  | publishData (payload : DataPayload) (reliable : Bool)
deriving DecidableEq, Repr

/-- State of the LiveStreamBroadcaster component. React state hooks and refs
become fields; `roomOpen` is `room !== null`, `videoTrack`/`audioTrack` hold
the ids of acquired local tracks, `published` the tracks currently published
on the room, and `liveDevices` the capture devices currently held (a device
id enters on successful acquisition and leaves when its track is stopped). -/
structure BState where
  roomOpen : Bool
  connected : Bool
  isStreaming : Bool
  chatMessages : List ChatMessage
  chatInput : String
  connectionState : ConnectionState
  videoEnabled : Bool
  audioEnabled : Bool
  viewerCount : Int
  videoTrack : Option Nat
  audioTrack : Option Nat
  published : List Nat
  liveDevices : List Nat
deriving DecidableEq, Repr

/-- initial broadcaster state, from the useState/useRef initializers. -/
def initBState : BState :=
  { roomOpen := false
    connected := false
    isStreaming := false
    chatMessages := []
    chatInput := ""
    connectionState := ConnectionState.disconnected
    videoEnabled := true
    audioEnabled := true
    viewerCount := 0
    videoTrack := none
    audioTrack := none
    published := []
    liveDevices := [] }

/-- RoomEvent.ParticipantConnected handler: `setViewerCount(prev => prev + 1)`. -/
def onParticipantConnected (s : BState) : BState :=
  {s with viewerCount := s.viewerCount + 1}

/-- RoomEvent.ParticipantDisconnected handler:
`setViewerCount(prev => Math.max(0, prev - 1))`. -/
def onParticipantDisconnected (s : BState) : BState :=
  {s with viewerCount := max 0 (s.viewerCount - 1)}

/-- participant join/leave notifications from the room. -/
inductive ParticipantEvt
  | joined
  | left
deriving DecidableEq, Repr

/-- dispatch one participant event to the matching handler. -/
def applyParticipantEvt (s : BState) (e : ParticipantEvt) : BState :=
  match e with
  | ParticipantEvt.joined => onParticipantConnected s
  | ParticipantEvt.left => onParticipantDisconnected s

/-- run a sequence of participant events from a starting state. -/
def runParticipantEvts (s : BState) (es : List ParticipantEvt) : BState :=
  es.foldl applyParticipantEvt s

/-- RoomEvent.Disconnected handler: connected := false, connection state
disconnected, isStreaming := false (then invokes the onDisconnect prop). -/
def onDisconnected (s : BState) : BState :=
  {s with connected := false
          connectionState := ConnectionState.disconnected
          isStreaming := false}

/-- result of `JSON.parse` on an inbound data-channel payload: either a parsed
object (type discriminator plus optional `data` whose `user.username` may be
absent) or a parse failure for bytes that are not well-formed JSON. -/
structure MsgData where
  username : Option String
  message : String
deriving DecidableEq, Repr

/-- parsed shape of an inbound payload; `data = none` models a JSON object
without a `data` member, on which the field accesses below throw. -/
structure ParsedMsg where
  type : String
  data : Option MsgData
deriving DecidableEq, Repr

/-- outcome of decoding + JSON.parse of the inbound bytes. -/
inductive ParseResult
  | ok (m : ParsedMsg)
  | malformed
deriving DecidableEq, Repr

/-- RoomEvent.DataReceived handler: parse the payload inside try/catch; a parse
failure (or a chat_message without `data`, whose property access throws) is
caught and only logged; a parsed chat_message is appended to the log with
`user?.username || 'Unknown'` as sender. -/
def onDataReceived (s : BState) (p : ParseResult) (idStr : String)
    (localeTime : String) : BState × List BEffect :=
  match p with
  | ParseResult.malformed => (s, [BEffect.logError "Error parsing data message:"])
  | ParseResult.ok m =>
      if m.type = "chat_message" then
        match m.data with
        | none => (s, [BEffect.logError "Error parsing data message:"])
        | some d =>
            let u := match d.username with
              | some u => if u = "" then "Unknown" else u
              | none => "Unknown"
            ({s with chatMessages :=
                s.chatMessages ++ [⟨idStr, u, d.message, localeTime⟩]}, [])
      else (s, [])

/-- audio phase of startStreaming: if audioEnabled, acquire the microphone
(outcome given by `audioRes`) and publish it, then set isStreaming; a thrown
acquisition failure is caught and alerted, leaving prior updates in place. -/
def startStreamingAudioPhase (s : BState) (audioRes : Option Nat) :
    BState × List BEffect :=
  if s.audioEnabled then
    match audioRes with
    | none =>
        (s, [BEffect.alert
          "Failed to start streaming. Please check camera/microphone permissions."])
    | some a =>
        ({s with audioTrack := some a
                 liveDevices := s.liveDevices ++ [a]
                 published := s.published ++ [a]
                 isStreaming := true}, [])
  else ({s with isStreaming := true}, [])

/-- startStreaming: early return unless room is set and connected; if
videoEnabled, acquire the camera (outcome `videoRes`) and publish it, then
the audio phase; any thrown acquisition failure is caught by the single
catch block, which alerts without unwinding earlier publishes. -/
def startStreaming (s : BState) (videoRes : Option Nat) (audioRes : Option Nat) :
    BState × List BEffect :=
  if !s.roomOpen || !s.connected then (s, [])
  else if s.videoEnabled then
    match videoRes with
    | none =>
        (s, [BEffect.alert
          "Failed to start streaming. Please check camera/microphone permissions."])
    | some v =>
        startStreamingAudioPhase
          {s with videoTrack := some v
                  liveDevices := s.liveDevices ++ [v]
                  published := s.published ++ [v]} audioRes
  else startStreamingAudioPhase s audioRes

/-- stopStreaming: early return if room is null; unpublish, stop and null each
of the two track refs when present, then isStreaming := false. -/
def stopStreaming (s : BState) : BState :=
  if !s.roomOpen then s
  else
    let s1 :=
      match s.videoTrack with
      | some v =>
          {s with published := s.published.erase v
                  liveDevices := s.liveDevices.filter (fun d => d != v)
                  videoTrack := none}
      | none => s
    let s2 :=
      match s1.audioTrack with
      | some a =>
          {s1 with published := s1.published.erase a
                   liveDevices := s1.liveDevices.filter (fun d => d != a)
                   audioTrack := none}
      | none => s1
    {s2 with isStreaming := false}

/-- whitespace test used by the JavaScript trim below. -/
def isWsChar (c : Char) : Bool :=
  c = ' ' ∨ c = '\t' ∨ c = '\n' ∨ c = '\r'

/-- JavaScript `String.prototype.trim`, in a form the kernel can evaluate:
drop whitespace characters from both ends of the character list. -/
def strTrim (s : String) : String :=
  ⟨((s.data.dropWhile isWsChar).reverse.dropWhile isWsChar).reverse⟩

/-- clock readings used when building chat messages. -/
structure Clock where
  idStr : String
  localeTime : String
  isoTime : String
deriving DecidableEq, Repr

/-- sendChatMessage: early return if room is null or the trimmed input is
empty; publish the chat payload with `{reliable: true}`, append the message
to the local log immediately and clear the input. -/
def sendChatMessage (userName : String) (s : BState) (clk : Clock) :
    BState × List BEffect :=
  if s.roomOpen = false ∨ strTrim s.chatInput = "" then (s, [])
  else
    let text := strTrim s.chatInput
    ({s with chatMessages :=
        s.chatMessages ++ [⟨clk.idStr, userName, text, clk.localeTime⟩],
             chatInput := ""},
     [BEffect.publishData ⟨"chat_message", userName, text, clk.isoTime⟩ true])

/-- disconnect button handler: `if (room) room.disconnect()`. -/
def disconnect (s : BState) : BState :=
  if s.roomOpen then {s with roomOpen := false} else s

/-- stop of one track ref on a device list: releases every hold of that
device (no-op when the ref is null). -/
def stopIfPresent (t : Option Nat) (l : List Nat) : List Nat :=
  match t with
  | some v => l.filter (fun d => d != v)
  | none => l

/-- useEffect cleanup: disconnect the room captured by the closure if non-null,
then stop the video and audio track refs when present. -/
def effectCleanup (capturedRoomOpen : Bool) (s : BState) : BState :=
  let s0 := if capturedRoomOpen then {s with roomOpen := false} else s
  {s0 with liveDevices :=
      stopIfPresent s0.audioTrack (stopIfPresent s0.videoTrack s0.liveDevices)}

/-- full teardown after a user disconnect: room.disconnect fires the
Disconnected handler, whose onDisconnect prop unmounts the component and runs
the effect cleanup. -/
def broadcasterTeardown (capturedRoomOpen : Bool) (s : BState) : BState :=
  effectCleanup capturedRoomOpen (onDisconnected (disconnect s))

/-- concrete controller state on the home screen with a whitespace-only room
name, as typed by a user. -/
def wsRoomState : AppState :=
  { mode := Mode.home
    roomName := " "
    userName := "Alice"
    serverUrl := "ws://192.168.1.100:7880"
    token := ""
    isLoading := false }

/-- concrete controller state with an empty room name. -/
def emptyRoomState : AppState :=
  { mode := Mode.home
    roomName := ""
    userName := "Alice"
    serverUrl := "ws://192.168.1.100:7880"
    token := ""
    isLoading := false }

/-- concrete controller state for the demo scenario room="demo", name="Alice". -/
def demoHomeState : AppState :=
  { mode := Mode.home
    roomName := "demo"
    userName := "Alice"
    serverUrl := "ws://192.168.1.100:7880"
    token := ""
    isLoading := false }

/-- concrete broadcaster state right after a successful room connection. -/
def connectedBState : BState :=
  {initBState with
     roomOpen := true
     connected := true
     connectionState := ConnectionState.connected}

/-- concrete broadcaster state streaming with both tracks live. -/
def idemProbe : BState :=
  {initBState with
     roomOpen := true
     connected := true
     connectionState := ConnectionState.connected
     videoTrack := some 1
     audioTrack := some 2
     published := [1, 2]
     liveDevices := [1, 2]
     isStreaming := true}

/-- concrete clock readings for witnesses. -/
def clk0 : Clock :=
  ⟨"1760200000000", "10:00:00 AM", "2026-10-12T10:00:00.000Z"⟩

lemma mem_stopIfPresent {x : Nat} {t : Option Nat} {l : List Nat}
    (hx : x ∈ stopIfPresent t l) : x ∈ l ∧ t ≠ some x := by
  cases t with
  | none => exact ⟨hx, by simp⟩
  | some v =>
      simp only [stopIfPresent, List.mem_filter, bne_iff_ne, ne_eq] at hx
      exact ⟨hx.1, fun hc => hx.2 (Option.some.inj hc).symm⟩

lemma stopIfPresent_all (l : List Nat) (vo ao : Option Nat)
    (h : ∀ d ∈ l, vo = some d ∨ ao = some d) :
    stopIfPresent ao (stopIfPresent vo l) = [] := by
  rw [List.eq_nil_iff_forall_not_mem]
  intro x hx
  obtain ⟨hx1, hao⟩ := mem_stopIfPresent hx
  obtain ⟨hx2, hvo⟩ := mem_stopIfPresent hx1
  rcases h x hx2 with h1 | h1
  · exact hvo h1
  · exact hao h1

lemma setStreamingFalse_eq_self (s : BState) (hs : s.isStreaming = false) :
    {s with isStreaming := false} = s := by
  cases s
  simp_all

lemma applyParticipantEvt_nonneg (s : BState) (e : ParticipantEvt)
    (h : 0 ≤ s.viewerCount) : 0 ≤ (applyParticipantEvt s e).viewerCount := by
  cases e with
  | joined =>
      show 0 ≤ s.viewerCount + 1
      omega
  | left =>
      show 0 ≤ max 0 (s.viewerCount - 1)
      exact le_max_left _ _

lemma runParticipantEvts_nonneg (es : List ParticipantEvt) (s : BState)
    (h : 0 ≤ s.viewerCount) : 0 ≤ (runParticipantEvts s es).viewerCount := by
  induction es generalizing s with
  | nil => simpa [runParticipantEvts] using h
  | cons e es ih =>
      have h1 := applyParticipantEvt_nonneg s e h
      simpa [runParticipantEvts, List.foldl_cons] using
        ih (applyParticipantEvt s e) h1

/-- C1 counterexample: with the whitespace-only room name " " (and name
"Alice"), handleStartBroadcast does issue a credential request to the backend
and switches the mode, because the guard only rejects empty strings: the
claim that whitespace-only inputs issue no credential request is false. -/
theorem whitespace_room_requests_credential :
    wsRoomState.roomName.data.all isWsChar = true ∧
    ¬(wsRoomState.roomName = "") ∧
    (handleStartBroadcast wsRoomState (BackendResponse.success "tok")).2 =
      [AppEffect.credentialRequest "Alice" " " "host"] ∧
    (handleStartBroadcast wsRoomState (BackendResponse.success "tok")).1.mode =
      Mode.broadcaster := by decide

/-- C1 (amended): for every room-name and display-name input that is the empty
string, both handleStartBroadcast and handleJoinViewer issue no credential
request, report the validation error by alert, and leave the whole controller
state (mode included) unchanged; whitespace-only non-empty inputs are not
rejected. -/
theorem empty_input_no_credential_request (s : AppState) (resp : BackendResponse)
    (h : s.roomName = "" ∨ s.userName = "") :
    handleStartBroadcast s resp =
      (s, [AppEffect.alert "Please enter room name and your name"]) ∧
    handleJoinViewer s resp =
      (s, [AppEffect.alert "Please enter room name and your name"]) := by
  unfold handleStartBroadcast handleJoinViewer
  rw [if_pos h, if_pos h]
  exact ⟨rfl, rfl⟩

/-- C1 witness: the amended theorem evaluated at the empty room name. -/
theorem empty_input_no_credential_request_witness :
    handleStartBroadcast emptyRoomState (BackendResponse.success "tok") =
      (emptyRoomState, [AppEffect.alert "Please enter room name and your name"]) ∧
    handleJoinViewer emptyRoomState (BackendResponse.success "tok") =
      (emptyRoomState, [AppEffect.alert "Please enter room name and your name"]) :=
  empty_input_no_credential_request emptyRoomState (BackendResponse.success "tok")
    (Or.inl rfl)

/-- C2 counterexample: in a connected broadcaster state with both toggles on,
when video acquisition succeeds (track 1) and audio acquisition then fails,
startStreaming leaves the video track published and its device held while
isStreaming stays false: the claim that no track is left published is false. -/
theorem audio_failure_leaves_video_published :
    (startStreaming connectedBState (some 1) none).1.published = [1] ∧
    (startStreaming connectedBState (some 1) none).1.videoTrack = some 1 ∧
    (startStreaming connectedBState (some 1) none).1.liveDevices = [1] ∧
    (startStreaming connectedBState (some 1) none).1.isStreaming = false ∧
    (startStreaming connectedBState (some 1) none).2 =
      [BEffect.alert
        "Failed to start streaming. Please check camera/microphone permissions."] := by
  decide

/-- C2 (amended): when device acquisition fails, streaming is not considered
started (isStreaming stays false) and the failure is surfaced by alert; if
video acquisition itself fails nothing is published, but if video acquisition
succeeds and audio acquisition then fails, the already-published video track
remains published and its capture device remains held (a partial publish
occurs and is not unwound). -/
theorem device_failure_no_start_but_video_left_published (s : BState) (v : Nat)
    (hroom : s.roomOpen = true) (hconn : s.connected = true)
    (hvid : s.videoEnabled = true) (haud : s.audioEnabled = true)
    (hstr : s.isStreaming = false) :
    (startStreaming s none none).1 = s ∧
    (startStreaming s none none).2 =
      [BEffect.alert
        "Failed to start streaming. Please check camera/microphone permissions."] ∧
    (startStreaming s (some v) none).1.isStreaming = false ∧
    (startStreaming s (some v) none).2 =
      [BEffect.alert
        "Failed to start streaming. Please check camera/microphone permissions."] ∧
    (startStreaming s (some v) none).1.published = s.published ++ [v] ∧
    (startStreaming s (some v) none).1.videoTrack = some v ∧
    (startStreaming s (some v) none).1.liveDevices = s.liveDevices ++ [v] := by
  simp [startStreaming, startStreamingAudioPhase, hroom, hconn, hvid, haud, hstr]

/-- C2 witness: the amended theorem evaluated at the connected state, video
track 1 acquired, audio denied. -/
theorem device_failure_no_start_but_video_left_published_witness :
    (startStreaming connectedBState none none).1 = connectedBState ∧
    (startStreaming connectedBState none none).2 =
      [BEffect.alert
        "Failed to start streaming. Please check camera/microphone permissions."] ∧
    (startStreaming connectedBState (some 1) none).1.isStreaming = false ∧
    (startStreaming connectedBState (some 1) none).2 =
      [BEffect.alert
        "Failed to start streaming. Please check camera/microphone permissions."] ∧
    (startStreaming connectedBState (some 1) none).1.published =
      connectedBState.published ++ [1] ∧
    (startStreaming connectedBState (some 1) none).1.videoTrack = some 1 ∧
    (startStreaming connectedBState (some 1) none).1.liveDevices =
      connectedBState.liveDevices ++ [1] :=
  device_failure_no_start_but_video_left_published connectedBState 1
    rfl rfl rfl rfl rfl

/-- C3: a malformed inbound data-channel payload is dropped after a console
log: the state (and so the ChatMessage log length) is unchanged, and the only
effect is the error log, never an alert. -/
theorem malformed_payload_dropped (s : BState) (idStr : String)
    (localeTime : String) :
    (onDataReceived s ParseResult.malformed idStr localeTime).1 = s ∧
    (onDataReceived s ParseResult.malformed idStr localeTime).1.chatMessages.length =
      s.chatMessages.length ∧
    (onDataReceived s ParseResult.malformed idStr localeTime).2 =
      [BEffect.logError "Error parsing data message:"] :=
  ⟨rfl, rfl, rfl⟩

/-- C4: when the credential request fails, with a non-200 response carrying a
non-empty error message or with a thrown network error, the error message is
surfaced verbatim inside the alert shown to the user, mode and token are
unchanged, and the only other effect is the credential request itself. -/
theorem credential_failure_surfaced_mode_unchanged (s : AppState) (e : String)
    (hr : ¬(s.roomName = "" ∨ s.userName = "")) (he : e ≠ "") :
    (handleStartBroadcast s (BackendResponse.errorStatus (some e))).1.mode = s.mode ∧
    (handleStartBroadcast s (BackendResponse.errorStatus (some e))).1.token = s.token ∧
    (handleStartBroadcast s (BackendResponse.errorStatus (some e))).2 =
      [AppEffect.credentialRequest s.userName s.roomName "host",
       AppEffect.alert ("Failed to generate broadcaster token: " ++ e)] ∧
    (handleStartBroadcast s (BackendResponse.networkFailure e)).1.mode = s.mode ∧
    (handleStartBroadcast s (BackendResponse.networkFailure e)).1.token = s.token ∧
    (handleStartBroadcast s (BackendResponse.networkFailure e)).2 =
      [AppEffect.credentialRequest s.userName s.roomName "host",
       AppEffect.alert ("Failed to generate broadcaster token: " ++ e)] := by
  unfold handleStartBroadcast generateToken roleFor
  simp only [if_neg hr, if_neg he]
  simp

/-- C4 witness: the theorem evaluated at the scenario where the backend
answers a non-200 status with error "room full" from the home screen. -/
theorem credential_failure_surfaced_mode_unchanged_witness :
    (handleStartBroadcast demoHomeState
        (BackendResponse.errorStatus (some "room full"))).1.mode =
      demoHomeState.mode ∧
    (handleStartBroadcast demoHomeState
        (BackendResponse.errorStatus (some "room full"))).1.token =
      demoHomeState.token ∧
    (handleStartBroadcast demoHomeState
        (BackendResponse.errorStatus (some "room full"))).2 =
      [AppEffect.credentialRequest demoHomeState.userName demoHomeState.roomName
         "host",
       AppEffect.alert ("Failed to generate broadcaster token: " ++ "room full")] ∧
    (handleStartBroadcast demoHomeState
        (BackendResponse.networkFailure "room full")).1.mode =
      demoHomeState.mode ∧
    (handleStartBroadcast demoHomeState
        (BackendResponse.networkFailure "room full")).1.token =
      demoHomeState.token ∧
    (handleStartBroadcast demoHomeState
        (BackendResponse.networkFailure "room full")).2 =
      [AppEffect.credentialRequest demoHomeState.userName demoHomeState.roomName
         "host",
       AppEffect.alert ("Failed to generate broadcaster token: " ++ "room full")] :=
  credential_failure_surfaced_mode_unchanged demoHomeState "room full"
    (by decide) (by decide)

/-- C5: a successful broadcast request with non-empty room and display names,
answered with token t, switches mode to broadcaster and the render branch
hands exactly t (with the unchanged room name, server url and user name) to
the Broadcaster view. -/
theorem broadcast_success_token_passthrough (s : AppState) (t : String)
    (hr : ¬(s.roomName = "" ∨ s.userName = "")) :
    handleStartBroadcast s (BackendResponse.success t) =
      ({s with token := t, mode := Mode.broadcaster, isLoading := false},
       [AppEffect.credentialRequest s.userName s.roomName "host"]) ∧
    renderApp (handleStartBroadcast s (BackendResponse.success t)).1 =
      View.broadcasterView s.roomName t s.serverUrl s.userName := by
  unfold handleStartBroadcast generateToken roleFor renderApp
  simp only [if_neg hr]
  simp

/-- C5 witness: the theorem evaluated at the scenario room="demo",
name="Alice", token "abc". -/
theorem broadcast_success_token_passthrough_witness :
    handleStartBroadcast demoHomeState (BackendResponse.success "abc") =
      ({demoHomeState with
          token := "abc", mode := Mode.broadcaster, isLoading := false},
       [AppEffect.credentialRequest demoHomeState.userName demoHomeState.roomName
          "host"]) ∧
    renderApp (handleStartBroadcast demoHomeState (BackendResponse.success "abc")).1 =
      View.broadcasterView demoHomeState.roomName "abc" demoHomeState.serverUrl
        demoHomeState.userName :=
  broadcast_success_token_passthrough demoHomeState "abc" (by decide)

/-- C6: a disconnection notification always sets mode back to home and clears
the token, while the room name, user name, server url and loading flag are
unchanged. -/
theorem disconnect_resets_mode_and_token (s : AppState) :
    (handleDisconnect s).mode = Mode.home ∧
    (handleDisconnect s).token = "" ∧
    (handleDisconnect s).roomName = s.roomName ∧
    (handleDisconnect s).userName = s.userName ∧
    (handleDisconnect s).serverUrl = s.serverUrl ∧
    (handleDisconnect s).isLoading = s.isLoading :=
  ⟨rfl, rfl, rfl, rfl, rfl, rfl⟩

/-- C7: stopStreaming is idempotent, calling it when no local feed is
published (both track refs null, not streaming) is a no-op, and when the room
is open and every held device belongs to one of the two track refs, it
releases all devices, nulls both refs and clears isStreaming. -/
theorem stopStreaming_idempotent :
    (∀ s : BState, stopStreaming (stopStreaming s) = stopStreaming s) ∧
    (∀ s : BState, s.videoTrack = none → s.audioTrack = none →
      s.isStreaming = false → stopStreaming s = s) ∧
    (∀ s : BState, s.roomOpen = true →
      (∀ d ∈ s.liveDevices, s.videoTrack = some d ∨ s.audioTrack = some d) →
      (stopStreaming s).liveDevices = [] ∧
      (stopStreaming s).videoTrack = none ∧
      (stopStreaming s).audioTrack = none ∧
      (stopStreaming s).isStreaming = false) := by
  refine ⟨?_, ?_, ?_⟩
  · intro s
    obtain ⟨ro, co, st, cm, ci, cs, ve, ae, vc, vt, au, pu, ld⟩ := s
    cases ro <;> cases vt <;> cases au <;> rfl
  · intro s hv ha hs
    cases hro : s.roomOpen with
    | false => simp [stopStreaming, hro]
    | true =>
        have hbody : stopStreaming s = {s with isStreaming := false} := by
          simp [stopStreaming, hro, hv, ha]
        rw [hbody]
        exact setStreamingFalse_eq_self s hs
  · intro s hro h
    have hred : (stopStreaming s).liveDevices =
        stopIfPresent s.audioTrack (stopIfPresent s.videoTrack s.liveDevices) ∧
        (stopStreaming s).videoTrack = none ∧
        (stopStreaming s).audioTrack = none ∧
        (stopStreaming s).isStreaming = false := by
      cases hv : s.videoTrack <;> cases ha : s.audioTrack <;>
        simp [stopStreaming, stopIfPresent, hro, hv, ha]
    refine ⟨?_, hred.2⟩
    rw [hred.1]
    exact stopIfPresent_all _ _ _ h

/-- C7 witness: idempotence and the release clause evaluated at a streaming
state with both tracks live, and the no-op evaluated at the initial state. -/
theorem stopStreaming_idempotent_witness :
    stopStreaming (stopStreaming idemProbe) = stopStreaming idemProbe ∧
    stopStreaming initBState = initBState ∧
    (stopStreaming idemProbe).liveDevices = [] :=
  ⟨stopStreaming_idempotent.1 idemProbe,
   stopStreaming_idempotent.2.1 initBState rfl rfl rfl,
   (stopStreaming_idempotent.2.2 idemProbe rfl (by decide)).1⟩

/-- C8: with the room open and a non-whitespace chat input, sendChatMessage
publishes exactly the payload type "chat_message" with the user name, trimmed
message and timestamp, requesting reliable delivery, and appends the message
to the local log immediately while clearing the input. -/
theorem chat_payload_reliable_and_appended (userName : String) (s : BState)
    (clk : Clock) (hroom : s.roomOpen = true)
    (hinput : ¬(strTrim s.chatInput = "")) :
    (sendChatMessage userName s clk).2 =
      [BEffect.publishData
        ⟨"chat_message", userName, strTrim s.chatInput, clk.isoTime⟩ true] ∧
    (sendChatMessage userName s clk).1.chatMessages =
      s.chatMessages ++ [⟨clk.idStr, userName, strTrim s.chatInput, clk.localeTime⟩] ∧
    (sendChatMessage userName s clk).1.chatInput = "" := by
  have hc : ¬(s.roomOpen = false ∨ strTrim s.chatInput = "") := by
    simp [hroom, hinput]
  unfold sendChatMessage
  simp only [if_neg hc]
  simp

/-- C8 witness: the theorem evaluated at a connected state whose chat input is
"  hi there  ". -/
theorem chat_payload_reliable_and_appended_witness :
    (sendChatMessage "Alice" {connectedBState with chatInput := "  hi there  "}
        clk0).2 =
      [BEffect.publishData
        ⟨"chat_message", "Alice",
         strTrim (BState.chatInput {connectedBState with chatInput := "  hi there  "}),
         clk0.isoTime⟩ true] ∧
    (sendChatMessage "Alice" {connectedBState with chatInput := "  hi there  "}
        clk0).1.chatMessages =
      BState.chatMessages {connectedBState with chatInput := "  hi there  "} ++
        [⟨clk0.idStr, "Alice",
          strTrim (BState.chatInput {connectedBState with chatInput := "  hi there  "}),
          clk0.localeTime⟩] ∧
    (sendChatMessage "Alice" {connectedBState with chatInput := "  hi there  "}
        clk0).1.chatInput = "" :=
  chat_payload_reliable_and_appended "Alice"
    {connectedBState with chatInput := "  hi there  "} clk0 rfl (by decide)

/-- C9: after teardown of a broadcaster session, by the unmount cleanup alone
or by the full user-disconnect chain (room disconnect, Disconnected handler,
cleanup), no capture device is still held, provided every held device belongs
to one of the two local track refs, as the component maintains. -/
theorem teardown_releases_all_devices (cro : Bool) (s : BState)
    (h : ∀ d ∈ s.liveDevices, s.videoTrack = some d ∨ s.audioTrack = some d) :
    (effectCleanup cro s).liveDevices = [] ∧
    (broadcasterTeardown cro s).liveDevices = [] := by
  have key : ∀ s' : BState, s'.liveDevices = s.liveDevices →
      s'.videoTrack = s.videoTrack → s'.audioTrack = s.audioTrack →
      (effectCleanup cro s').liveDevices = [] := by
    intro s' h1 h2 h3
    have hred : (effectCleanup cro s').liveDevices =
        stopIfPresent s'.audioTrack (stopIfPresent s'.videoTrack s'.liveDevices) := by
      unfold effectCleanup
      cases cro <;> simp
    rw [hred, h1, h2, h3]
    exact stopIfPresent_all s.liveDevices s.videoTrack s.audioTrack h
  refine ⟨key s rfl rfl rfl, ?_⟩
  unfold broadcasterTeardown
  apply key
  · unfold disconnect onDisconnected
    split <;> simp
  · unfold disconnect onDisconnected
    split <;> simp
  · unfold disconnect onDisconnected
    split <;> simp

/-- C9 witness: the theorem evaluated at a streaming state holding devices 1
and 2 through its two track refs. -/
theorem teardown_releases_all_devices_witness :
    (effectCleanup true idemProbe).liveDevices = [] ∧
    (broadcasterTeardown true idemProbe).liveDevices = [] :=
  teardown_releases_all_devices true idemProbe (by decide)

/-- C10: every participant-connected event increments the viewer count by one,
every participant-disconnected event clamps it at zero while decrementing,
and over every sequence of join/leave events from the initial state the
displayed count stays nonnegative. -/
theorem viewerCount_clamped_nonneg :
    (∀ s : BState, (onParticipantConnected s).viewerCount = s.viewerCount + 1) ∧
    (∀ s : BState,
      (onParticipantDisconnected s).viewerCount = max 0 (s.viewerCount - 1)) ∧
    ∀ es : List ParticipantEvt,
      0 ≤ (runParticipantEvts initBState es).viewerCount := by
  refine ⟨fun s => rfl, fun s => rfl, fun es => ?_⟩
  exact runParticipantEvts_nonneg es initBState (by decide)
